import Mathlib

/-!
Shallow embedding of the orchestration core of `src/downloader-pc-cli.py`
(a Spotify-playlist to local-audio-file converter), together with proofs of
the specification's claims about it.

Embedded pieces:
  * `sanitize_filename`  (lines 68-70): character-wise replacement of the
    Windows-reserved characters by an underscore, via `re.sub`.
  * `download_youtube`   (lines 87-151, audio path): query rewriting for
    free-text searches and the exit-code driven success/failure result.
  * `convert_spotify_playlist` (lines 154-227): playlist-id extraction from
    the URL, pagination-aware track aggregation, and the per-track
    skip / download / fail loop with its three counters.

External effects (filesystem existence checks, the external downloader
process, the catalog service) are passed in as explicit function parameters;
the calls the orchestrator makes are recorded in the result record.
-/

/-- The reserved-character class of the regex `[<>:"/\\|?*]` in
`sanitize_filename` (line 70). -/
def isReservedChar (c : Char) : Bool :=
  c = '<' || c = '>' || c = ':' || c = '"' || c = '/' ||
  c = '\\' || c = '|' || c = '?' || c = '*'

/-- One character of the `re.sub` in `sanitize_filename`: a reserved
character becomes an underscore, anything else is unchanged. -/
def sanChar (c : Char) : Char :=
  if isReservedChar c = true then '_' else c

/-- `sanitize_filename` (lines 68-70): `re.sub(r'[<>:"/\\|?*]', "_", name)`,
i.e. the character-wise map of `sanChar` over the string. -/
def sanitize_filename (name : String) : String :=
  String.mk (name.data.map sanChar)

theorem sanChar_not_reserved (c : Char) : isReservedChar (sanChar c) = false := by
  unfold sanChar
  by_cases h : isReservedChar c = true
  · simp only [h, if_true]
    decide
  · simp only [h, if_false]
    simpa using h

theorem sanChar_idem (c : Char) : sanChar (sanChar c) = sanChar c := by
  unfold sanChar
  by_cases h : isReservedChar c = true
  · simp [h]
  · simp [h]

theorem getD_map_sanChar (l : List Char) (i : Nat) (h : i < l.length) :
    (l.map sanChar).getD i 'x' = sanChar (l.getD i 'x') := by
  induction l generalizing i with
  | nil => simp at h
  | cons c cs ih =>
    cases i with
    | zero => simp [List.getD]
    | succ j =>
      simp only [List.map_cons, List.getD_cons_succ]
      exact ih j (by simpa using h)

/-- C7: `sanitize_filename` is total and deterministic (it is a function),
length-preserving, its output has no reserved character, and position `i`
of the output is an underscore when position `i` of the input is reserved
and the unchanged input character otherwise. -/
theorem sanitize_char_spec (s : String) (i : Nat) (h : i < s.data.length) :
    (sanitize_filename s).length = s.length ∧
    isReservedChar ((sanitize_filename s).data.getD i 'x') = false ∧
    (sanitize_filename s).data.getD i 'x' =
      (if isReservedChar (s.data.getD i 'x') = true then '_'
       else s.data.getD i 'x') := by
  refine ⟨?_, ?_, ?_⟩
  · show (s.data.map sanChar).length = s.data.length
    simp
  · show isReservedChar ((s.data.map sanChar).getD i 'x') = false
    rw [getD_map_sanChar s.data i h]
    exact sanChar_not_reserved _
  · show (s.data.map sanChar).getD i 'x' = _
    rw [getD_map_sanChar s.data i h]
    rfl

/-- Witness for C7 at the concrete input `"a?b"`, position 1 (the `?`). -/
theorem sanitize_char_spec_witness :
    1 < "a?b".data.length ∧
    ((sanitize_filename "a?b").length = "a?b".length ∧
     isReservedChar ((sanitize_filename "a?b").data.getD 1 'x') = false ∧
     (sanitize_filename "a?b").data.getD 1 'x' =
       (if isReservedChar ("a?b".data.getD 1 'x') = true then '_'
        else "a?b".data.getD 1 'x')) :=
  ⟨by decide, sanitize_char_spec "a?b" 1 (by decide)⟩

/-- C8: `sanitize_filename` is idempotent. -/
theorem sanitize_idem (s : String) :
    sanitize_filename (sanitize_filename s) = sanitize_filename s := by
  unfold sanitize_filename
  simp only [List.map_map]
  congr 1
  apply List.map_congr_left
  intro c _
  exact sanChar_idem c

theorem sanitize_filename_append (a b : String) :
    sanitize_filename (a ++ b) = sanitize_filename a ++ sanitize_filename b := by
  show String.mk ((a.data ++ b.data).map sanChar) = _
  simp [sanitize_filename, String.ext_iff]

theorem sanitize_mp3 : sanitize_filename ".mp3" = ".mp3" := by decide

/-- C10: `sanitize_filename` distributes over string concatenation; in
particular sanitizing `query ++ ".mp3"` in one go (as line 199 does) equals
sanitizing `query` and appending the literal `".mp3"`. -/
theorem sanitize_append (a b : String) :
    sanitize_filename (a ++ b) = sanitize_filename a ++ sanitize_filename b ∧
    sanitize_filename (a ++ ".mp3") = sanitize_filename a ++ ".mp3" := by
  refine ⟨sanitize_filename_append a b, ?_⟩
  rw [sanitize_filename_append a ".mp3", sanitize_mp3]

/-- A track record as consumed by the loop (lines 196-197): its title and
the list of its artist names. -/
structure Track where
  name : String
  artists : List String
deriving Repr, DecidableEq

/-- One page of a playlist's track listing, as the catalog returns it:
`items` is the page's list of track entries (each entry's `"track"` value
may be null, hence `Option Track`), `next` the pagination cursor
(`playlist["tracks"]["next"]`, null on the last page). -/
structure Page where
  items : List (Option Track)
  next : Option String
deriving Repr, DecidableEq

/-- The catalog's response for a playlist (lines 161-174): its display
name, the first page of tracks, and the stream of pages `spotify.next`
returns on successive calls. -/
structure PlaylistResp where
  name : String
  first : Page
  rest : List Page
deriving Repr, DecidableEq

/-- Result of the external `yt-dlp` subprocess (lines 132-140): exit code
and error-stream text. -/
structure ProcResult where
  returncode : Int
  stderr : String
deriving Repr, DecidableEq

/-- What `download_youtube` reports back (lines 143-147): success, or a
download error carrying the subprocess's stderr text. -/
inductive DlResult where
  | ok : DlResult
  | err (stderr : String) : DlResult
deriving Repr, DecidableEq

/-- The regex test `re.match(r"^https?://", query)` (line 118). -/
def startsWithHttp (q : String) : Bool :=
  q.startsWith "http://" || q.startsWith "https://"

/-- Query rewriting of the audio branch of `download_youtube` (lines
118-119): a non-URL query becomes a first-search-result directive. -/
def build_audio_query (q : String) : String :=
  if startsWithHttp q then q else "ytsearch1:" ++ q ++ " official audio"

/-- `download_youtube` in audio mode (lines 87-151, `is_video=False`, as
the playlist loop calls it): rewrite the query, run the external process
(modelled by `proc` mapping the final query to the process result), and
report success exactly when the exit code is 0, otherwise the stderr
text. -/
def download_youtube (proc : String → ProcResult) (query : String) : DlResult :=
  let r := proc (build_audio_query query)
  if r.returncode = 0 then DlResult.ok else DlResult.err r.stderr

/-- `os.path.join(a, b)` for a relative second component on POSIX. -/
def path_join (a b : String) : String := a ++ "/" ++ b

/-- Line 197-198: `query = f"{artist} - {title}"` with
`artist = ", ".join(artist names)`. -/
def track_query (t : Track) : String :=
  String.intercalate ", " t.artists ++ " - " ++ t.name

/-- Line 199: the filename whose existence decides the skip,
`os.path.join(full_path, sanitize_filename(f"{query}.mp3"))`. -/
def track_filename (full_path : String) (t : Track) : String :=
  path_join full_path (sanitize_filename (track_query t ++ ".mp3"))

/-- The loop-carried state of lines 178-218: the three counters and, as the
record of every Media Fetcher invocation, the list of queries passed to
`download_youtube`. -/
structure LoopState where
  successful_downloads : Nat
  skipped_downloads : Nat
  failed_downloads : Nat
  dl_calls : List String
deriving Repr, DecidableEq

/-- Counters start at zero (lines 178-180), no fetcher call made yet. -/
def initLoopState : LoopState := ⟨0, 0, 0, []⟩

/-- One iteration of the per-track loop (lines 191-218). `file_on_disk`
models `os.path.exists`; `proc` models the external subprocess. A null
entry is skipped silently; an existing file increments the skip counter; otherwise
`download_youtube` is invoked and the success or failure counter
increments according to its result. -/
def stepTrack (file_on_disk : String → Bool) (proc : String → ProcResult)
    (full_path : String) (st : LoopState) (item : Option Track) : LoopState :=
  match item with
  | none => st
  | some track =>
    let filename := track_filename full_path track
    if file_on_disk filename then
      { st with skipped_downloads := st.skipped_downloads + 1 }
    else
      match download_youtube proc (track_query track) with
      | DlResult.ok =>
        { st with successful_downloads := st.successful_downloads + 1,
                  dl_calls := st.dl_calls ++ [track_query track] }
      | DlResult.err _ =>
        { st with failed_downloads := st.failed_downloads + 1,
                  dl_calls := st.dl_calls ++ [track_query track] }

/-- The pagination loop of lines 169-174: start from the first page's
items and, while the current page's `next` cursor is non-null, fetch the
next page (taken from the head of `rest`) and append its items. -/
def collectTracks (p : Page) (rest : List Page) : List (Option Track) :=
  match p.next, rest with
  | none, _ => p.items
  | some _, [] => p.items
  | some _, q :: qs => p.items ++ collectTracks q qs

/-- Well-formedness of a catalog response: each page's `next` cursor is
non-null exactly when a further page follows. -/
def chainOK (p : Page) : List Page → Bool
  | [] => p.next.isNone
  | q :: qs => p.next.isSome && chainOK q qs

/-- `[a-zA-Z0-9]` of the playlist-id regex (line 155). -/
def isAlnumAscii (c : Char) : Bool := c.isAlpha || c.isDigit

/-- Longest run of id characters at the front, the `([a-zA-Z0-9]+)`
capture group. -/
def takeAlnumRun : List Char → List Char
  | [] => []
  | c :: cs => if isAlnumAscii c then c :: takeAlnumRun cs else []

/-- Strip a literal from the front of a character list, or fail. -/
def stripLit : List Char → List Char → Option (List Char)
  | [], s => some s
  | _ :: _, [] => none
  | p :: ps, c :: cs => if p = c then stripLit ps cs else none

/-- `re.search(r"(?:playlist/|playlist:)([a-zA-Z0-9]+)", url)` (line 155):
scan left to right for `playlist/` or `playlist:` followed by at least one
id character, and return the captured id of the leftmost match. -/
def findPlaylistId : List Char → Option String
  | [] => none
  | c :: cs =>
    match (stripLit "playlist/".data (c :: cs)).orElse
          (fun _ => stripLit "playlist:".data (c :: cs)) with
    | some tail =>
      let run := takeAlnumRun tail
      if run.isEmpty then findPlaylistId cs else some (String.mk run)
    | none => findPlaylistId cs

/-- Everything observable about one run of `convert_spotify_playlist`:
whether the URL was rejected (lines 155-158), which playlist id was
requested from the catalog (line 161, `none` when no catalog call was
made), which destination directory was created (line 164), the queries
passed to `download_youtube`, and the three final counters of the summary
(lines 221-224). -/
structure RunLog where
  invalid_url : Bool
  catalog_fetch : Option String
  made_dir : Option String
  dl_calls : List String
  successful_downloads : Nat
  skipped_downloads : Nat
  failed_downloads : Nat
deriving Repr, DecidableEq

/-- `convert_spotify_playlist` (lines 154-227): extract the playlist id
from the URL (abort with no effects when the pattern does not match),
fetch and aggregate all pages of tracks, then run the per-track loop and
report the three counters. -/
def convert_spotify_playlist (file_on_disk : String → Bool)
    (proc : String → ProcResult) (resp : PlaylistResp)
    (url : String) (output_dir : String) : RunLog :=
  match findPlaylistId url.data with
  | none =>
    { invalid_url := true, catalog_fetch := none, made_dir := none,
      dl_calls := [], successful_downloads := 0, skipped_downloads := 0,
      failed_downloads := 0 }
  | some pid =>
    let name := sanitize_filename resp.name
    let full_path := path_join output_dir name
    let tracks := collectTracks resp.first resp.rest
    let final := tracks.foldl (stepTrack file_on_disk proc full_path) initLoopState
    { invalid_url := false, catalog_fetch := some pid,
      made_dir := some full_path, dl_calls := final.dl_calls,
      successful_downloads := final.successful_downloads,
      skipped_downloads := final.skipped_downloads,
      failed_downloads := final.failed_downloads }

/-- C4: a null/removed track entry leaves the loop state — all three
counters and the record of Media Fetcher invocations — unchanged. -/
theorem null_track_no_effect (file_on_disk : String → Bool)
    (proc : String → ProcResult) (full_path : String) (st : LoopState) :
    stepTrack file_on_disk proc full_path st none = st := rfl

/-- C2: when the expected output file of a non-null track already exists,
the iteration only increments the skip counter; the success and failure
counters and the list of Media Fetcher invocations are those of `st`,
unchanged. -/
theorem existing_file_skips (file_on_disk : String → Bool)
    (proc : String → ProcResult) (full_path : String) (st : LoopState)
    (t : Track) (h : file_on_disk (track_filename full_path t) = true) :
    stepTrack file_on_disk proc full_path st (some t) =
      { st with skipped_downloads := st.skipped_downloads + 1 } := by
  unfold stepTrack
  simp [h]

/-- Witness for C2: one track whose file exists, starting from the initial
state. -/
theorem existing_file_skips_witness :
    (fun _ => true) (track_filename "out" ⟨"T", ["A"]⟩) = true ∧
    stepTrack (fun _ => true) (fun _ => ⟨0, ""⟩) "out" initLoopState
        (some ⟨"T", ["A"]⟩) =
      { initLoopState with
          skipped_downloads := initLoopState.skipped_downloads + 1 } :=
  ⟨rfl, existing_file_skips (fun _ => true) (fun _ => ⟨0, ""⟩) "out"
      initLoopState ⟨"T", ["A"]⟩ rfl⟩

/-- C3: the filename whose existence is checked — the code sanitizes the
query and the `.mp3` extension together — equals the destination directory
joined with `sanitize(query) ++ ".mp3"`, the query sanitized alone and the
literal extension appended. -/
theorem filename_formula (full_path : String) (t : Track) :
    track_filename full_path t =
      path_join full_path (sanitize_filename (track_query t) ++ ".mp3") := by
  unfold track_filename
  rw [sanitize_filename_append, sanitize_mp3]

theorem stepTrack_counter_sum (file_on_disk : String → Bool)
    (proc : String → ProcResult) (full_path : String) (st : LoopState)
    (item : Option Track) :
    (stepTrack file_on_disk proc full_path st item).successful_downloads +
      (stepTrack file_on_disk proc full_path st item).skipped_downloads +
      (stepTrack file_on_disk proc full_path st item).failed_downloads =
    st.successful_downloads + st.skipped_downloads + st.failed_downloads +
      (if item.isSome then 1 else 0) := by
  cases item with
  | none => simp [stepTrack]
  | some t =>
    unfold stepTrack
    by_cases h : file_on_disk (track_filename full_path t) = true
    · simp [h]
      omega
    · simp only [Bool.not_eq_true] at h
      cases hdl : download_youtube proc (track_query t) with
      | ok => simp [h, hdl]; omega
      | err e => simp [h, hdl]; omega

theorem foldl_counter_sum (file_on_disk : String → Bool)
    (proc : String → ProcResult) (full_path : String)
    (tracks : List (Option Track)) (st : LoopState) :
    (tracks.foldl (stepTrack file_on_disk proc full_path) st).successful_downloads +
      (tracks.foldl (stepTrack file_on_disk proc full_path) st).skipped_downloads +
      (tracks.foldl (stepTrack file_on_disk proc full_path) st).failed_downloads =
    st.successful_downloads + st.skipped_downloads + st.failed_downloads +
      tracks.countP (fun it => it.isSome) := by
  induction tracks generalizing st with
  | nil => simp
  | cons item rest ih =>
    simp only [List.foldl_cons]
    rw [ih (stepTrack file_on_disk proc full_path st item)]
    rw [stepTrack_counter_sum file_on_disk proc full_path st item]
    cases item
    all_goals simp [List.countP_cons]
    all_goals omega

/-- C1: for a conversion that runs to completion (the URL matched, so the
loop was reached), the three counters of the final summary sum to the
number of non-null entries of the aggregated track list; the proof goes
through the per-iteration invariant `foldl_counter_sum`. -/
theorem counters_sum (file_on_disk : String → Bool)
    (proc : String → ProcResult) (resp : PlaylistResp)
    (url output_dir : String) (pid : String)
    (h : findPlaylistId url.data = some pid) :
    (convert_spotify_playlist file_on_disk proc resp url output_dir).successful_downloads +
      (convert_spotify_playlist file_on_disk proc resp url output_dir).skipped_downloads +
      (convert_spotify_playlist file_on_disk proc resp url output_dir).failed_downloads =
    (collectTracks resp.first resp.rest).countP (fun it => it.isSome) := by
  unfold convert_spotify_playlist
  rw [h]
  simp only
  rw [foldl_counter_sum]
  simp [initLoopState]

/-- Witness for C1: a two-track playlist (one null entry), a track that
downloads and a null entry, on a matching URL. -/
theorem counters_sum_witness :
    findPlaylistId "playlist/abc1".data = some "abc1" ∧
    (convert_spotify_playlist (fun _ => false) (fun _ => ⟨0, ""⟩)
        ⟨"P", ⟨[some ⟨"T", ["A"]⟩, none], none⟩, []⟩ "playlist/abc1"
        "out").successful_downloads +
      (convert_spotify_playlist (fun _ => false) (fun _ => ⟨0, ""⟩)
        ⟨"P", ⟨[some ⟨"T", ["A"]⟩, none], none⟩, []⟩ "playlist/abc1"
        "out").skipped_downloads +
      (convert_spotify_playlist (fun _ => false) (fun _ => ⟨0, ""⟩)
        ⟨"P", ⟨[some ⟨"T", ["A"]⟩, none], none⟩, []⟩ "playlist/abc1"
        "out").failed_downloads =
    (collectTracks (⟨[some ⟨"T", ["A"]⟩, none], none⟩ : Page) []).countP
      (fun it => it.isSome) :=
  ⟨by decide, counters_sum (fun _ => false) (fun _ => ⟨0, ""⟩)
      ⟨"P", ⟨[some ⟨"T", ["A"]⟩, none], none⟩, []⟩ "playlist/abc1" "out"
      "abc1" (by decide)⟩

theorem collectTracks_eq_join (rest : List Page) (p : Page)
    (h : chainOK p rest = true) :
    collectTracks p rest = ((p :: rest).map Page.items).flatten := by
  induction rest generalizing p with
  | nil =>
    cases hn : p.next with
    | none => simp [collectTracks, hn]
    | some c =>
      unfold chainOK at h
      rw [hn] at h
      simp [Option.isNone] at h
  | cons q qs ih =>
    unfold chainOK at h
    simp only [Bool.and_eq_true] at h
    cases hn : p.next with
    | none => rw [hn] at h; simp [Option.isSome] at h
    | some c =>
      simp [collectTracks, hn, ih q h.2]

/-- C5: under a well-formed pagination chain, the aggregated track list is
the concatenation of all pages' item lists in page order, so its length is
the sum of the pages' item counts; pagination stops exactly at the null
cursor (`chainOK` requires the cursor to be non-null exactly while pages
remain); and the empty playlist aggregates to the empty list. -/
theorem collectTracks_spec (p : Page) (rest : List Page)
    (h : chainOK p rest = true) :
    collectTracks p rest = ((p :: rest).map Page.items).flatten ∧
    (collectTracks p rest).length =
      (((p :: rest).map Page.items).map List.length).sum ∧
    collectTracks ⟨[], none⟩ [] = ([] : List (Option Track)) := by
  refine ⟨collectTracks_eq_join rest p h, ?_, rfl⟩
  rw [collectTracks_eq_join rest p h]
  simp

/-- Witness for C5: a two-page playlist whose first page carries a cursor
and whose second page is terminal. -/
theorem collectTracks_spec_witness :
    chainOK ⟨[some ⟨"T", ["A"]⟩], some "cur"⟩ [⟨[none], none⟩] = true ∧
    (collectTracks ⟨[some ⟨"T", ["A"]⟩], some "cur"⟩ [⟨[none], none⟩] =
      (([⟨[some ⟨"T", ["A"]⟩], some "cur"⟩, ⟨[none], none⟩] :
          List Page).map Page.items).flatten ∧
     (collectTracks ⟨[some ⟨"T", ["A"]⟩], some "cur"⟩
        [⟨[none], none⟩]).length =
      ((([⟨[some ⟨"T", ["A"]⟩], some "cur"⟩, ⟨[none], none⟩] :
          List Page).map Page.items).map List.length).sum ∧
     collectTracks ⟨[], none⟩ [] = ([] : List (Option Track))) :=
  ⟨by decide, collectTracks_spec ⟨[some ⟨"T", ["A"]⟩], some "cur"⟩
      [⟨[none], none⟩] (by decide)⟩

/-- C6: when the external process exits non-zero for a non-null,
non-skipped track, `download_youtube` reports the failure carrying the
process's stderr text, the iteration increments only the failure counter
while recording the fetcher invocation, and folding the loop over the
remaining tracks continues from that updated state — the batch is not
aborted. -/
theorem download_failure_isolated (file_on_disk : String → Bool)
    (proc : String → ProcResult) (full_path : String) (st : LoopState)
    (t : Track) (rest : List (Option Track))
    (hfile : file_on_disk (track_filename full_path t) = false)
    (hexit : (proc (build_audio_query (track_query t))).returncode ≠ 0) :
    download_youtube proc (track_query t) =
      DlResult.err (proc (build_audio_query (track_query t))).stderr ∧
    stepTrack file_on_disk proc full_path st (some t) =
      { st with failed_downloads := st.failed_downloads + 1,
                dl_calls := st.dl_calls ++ [track_query t] } ∧
    (some t :: rest).foldl (stepTrack file_on_disk proc full_path) st =
      rest.foldl (stepTrack file_on_disk proc full_path)
        { st with failed_downloads := st.failed_downloads + 1,
                  dl_calls := st.dl_calls ++ [track_query t] } := by
  have hdl : download_youtube proc (track_query t) =
      DlResult.err (proc (build_audio_query (track_query t))).stderr := by
    unfold download_youtube
    simp [hexit]
  have hstep : stepTrack file_on_disk proc full_path st (some t) =
      { st with failed_downloads := st.failed_downloads + 1,
                dl_calls := st.dl_calls ++ [track_query t] } := by
    unfold stepTrack
    simp [hfile, hdl]
  refine ⟨hdl, hstep, ?_⟩
  rw [List.foldl_cons, hstep]

/-- Witness for C6: a failing process with exit code 1 and stderr text,
one trailing track in the batch. -/
theorem download_failure_isolated_witness :
    (fun _ => false) (track_filename "out" ⟨"T", ["A"]⟩) = false ∧
    ((fun _ => (⟨1, "boom"⟩ : ProcResult))
        (build_audio_query (track_query ⟨"T", ["A"]⟩))).returncode ≠ 0 ∧
    (download_youtube (fun _ => ⟨1, "boom"⟩) (track_query ⟨"T", ["A"]⟩) =
      DlResult.err ((fun _ => (⟨1, "boom"⟩ : ProcResult))
        (build_audio_query (track_query ⟨"T", ["A"]⟩))).stderr ∧
    stepTrack (fun _ => false) (fun _ => ⟨1, "boom"⟩) "out" initLoopState
        (some ⟨"T", ["A"]⟩) =
      { initLoopState with
          failed_downloads := initLoopState.failed_downloads + 1,
          dl_calls := initLoopState.dl_calls ++ [track_query ⟨"T", ["A"]⟩] } ∧
    (some ⟨"T", ["A"]⟩ :: [none]).foldl
        (stepTrack (fun _ => false) (fun _ => ⟨1, "boom"⟩) "out")
        initLoopState =
      [none].foldl (stepTrack (fun _ => false) (fun _ => ⟨1, "boom"⟩) "out")
        { initLoopState with
            failed_downloads := initLoopState.failed_downloads + 1,
            dl_calls := initLoopState.dl_calls ++
              [track_query ⟨"T", ["A"]⟩] }) :=
  ⟨rfl, by decide,
    download_failure_isolated (fun _ => false) (fun _ => ⟨1, "boom"⟩) "out"
      initLoopState ⟨"T", ["A"]⟩ [none] rfl (by decide)⟩

/-- C9: when no `playlist/<id>` or `playlist:<id>` pattern occurs in the
URL, the conversion aborts immediately: no catalog fetch is issued, no
destination directory is created, no fetcher call is made and no track is
counted. -/
theorem invalid_url_aborts (file_on_disk : String → Bool)
    (proc : String → ProcResult) (resp : PlaylistResp)
    (url output_dir : String) (h : findPlaylistId url.data = none) :
    convert_spotify_playlist file_on_disk proc resp url output_dir =
      { invalid_url := true, catalog_fetch := none, made_dir := none,
        dl_calls := [], successful_downloads := 0, skipped_downloads := 0,
        failed_downloads := 0 } := by
  unfold convert_spotify_playlist
  rw [h]

/-- Witness for C9: the string `"hello"` matches no recognized pattern. -/
theorem invalid_url_aborts_witness :
    findPlaylistId "hello".data = none ∧
    convert_spotify_playlist (fun _ => false) (fun _ => ⟨0, ""⟩)
        ⟨"P", ⟨[], none⟩, []⟩ "hello" "out" =
      { invalid_url := true, catalog_fetch := none, made_dir := none,
        dl_calls := [], successful_downloads := 0, skipped_downloads := 0,
        failed_downloads := 0 } :=
  ⟨by decide, invalid_url_aborts (fun _ => false) (fun _ => ⟨0, ""⟩)
      ⟨"P", ⟨[], none⟩, []⟩ "hello" "out" (by decide)⟩
